import Mathlib

/-!
Verification of the templated command-execution and tiered tracing subsystem
of `glue_helpers.py` (functions `run`, `issue`, `assertion`,
`disable_subcommand_tracing`, and the module-level initialization of
`default_subtrace_level` and `TEMP_LOG_FILE`).

The Python code is shallowly embedded: the process environment and the single
tracked temporary log file form a `World` value that is threaded explicitly;
the host shell is an oracle (`Shell`); the functions of the missing companion
module `tpo_common` (`tpo.debugging`, `tpo.detailed_debugging`,
`tpo.debugging_level`, `tpo.USUAL`, `tpo.format`, `setenv`) are modelled from
the specification, as noted on each definition.  Python exceptions are
`Except` values; the soft `assertion` helper emits warning strings and never
raises.  Tracing output (`debug_print`) is not itself state, so it is modelled
only where a claim observes it: the stderr contents read back and traced by
`issue` are recorded in the call's outcome.
-/

namespace GlueHelpers

/-- Errors the embedded operations can raise.  `templateResolutionError`
models the exception propagated by `tpo.format(..., ignore_exception=False)`
when a placeholder stays unresolved (the spec's `TemplateResolutionError`). -/
inductive GlueError where
  | templateResolutionError
  deriving DecidableEq, Repr

/-- Mutable process-scope state visible to the subsystem: the `DEBUG_LEVEL`
environment variable (`none` = unset) and the contents of the single tracked
temporary log file `TEMP_LOG_FILE` (`none` = file absent). -/
structure World where
  debugLevelEnv : Option String
  tempLog : Option String
  deriving DecidableEq, Repr

/-- Module-level configuration and state: the mutable global
`default_subtrace_level`, the booleans `tpo.debugging()` and
`tpo.detailed_debugging()` (modelled from the spec: the missing `tpo_common`
module exposes a tiered debug level; these are its threshold tests, constant
during one call), and the process-wide `TEMP_LOG_FILE` path chosen once at
startup. -/
structure Config where
  defaultSubtraceLevel : Int
  debugging : Bool
  detailedDebugging : Bool
  tempLogFile : String

/-- Oracle for the host shell and operating system: `getoutput` is the
combined captured text of a blocking call, `system` the raw status of
`os.system` for a background launch, `stderrText` the standard-error text a
command line produces when redirected, and `deleteOk` whether `os.remove` on
the temp log succeeds (false models an `OSError`). -/
structure Shell where
  getoutput : String → String
  system : String → Int
  stderrText : String → String
  deleteOk : Bool

/-- Structural prefix test on character lists (kernel-evaluable). -/
def listPre : List Char → List Char → Bool
  | [], _ => true
  | _ :: _, [] => false
  | a :: as, b :: bs => (a = b) && listPre as bs

/-- `s.endswith(suf)` on the underlying character lists. -/
def strEndsWith (s suf : String) : Bool :=
  listPre suf.data.reverse s.data.reverse

/-- Whether `sub` occurs as a contiguous substring (Python's `sub in s`). -/
def listHasSub (sub : List Char) : List Char → Bool
  | [] => sub.isEmpty
  | b :: bs => listPre sub (b :: bs) || listHasSub sub bs

/-- Python's `sub in s` membership test. -/
def strHasSub (s sub : String) : Bool :=
  listHasSub sub.data s.data

/-- Tail test for the regex group of `re.search` in run/issue: a closing
brace occurs before any newline (`.` does not match a newline). -/
def lineCloses : List Char → Bool
  | [] => false
  | c :: rest =>
    if c = '\x7d' then true
    else if c = '\n' then false
    else lineCloses rest

/-- Character-list body of `hasBraceGroup`. -/
def hasBraceGroupL : List Char → Bool
  | [] => false
  | c :: rest => (c = '\x7b' && lineCloses rest) || hasBraceGroupL rest

/-- Embeds `re.search("\x7b.*\x7d", command)` from `run` (line 181) and
`issue` (line 210): some opening brace is followed by a closing brace on the
same line. -/
def hasBraceGroup (s : String) : Bool :=
  hasBraceGroupL s.data

/-- Modelled from the spec: placeholder lookup for `tpo.format` — the
keyword-argument bindings are consulted first, then, best-effort, the
caller's local/global scope (`indirect_caller=True`). -/
def lookupVar (vars : List (String × String)) (caller : String → Option String)
    (name : String) : Option String :=
  match vars with
  | [] => caller name
  | (k, v) :: rest => if k = name then some v else lookupVar rest caller name

/-- Modelled from the spec: one left-to-right pass of template resolution for
`tpo.format`.  The second argument is `none` outside a placeholder and
`some name` while collecting a placeholder name; an unresolved name (or a
dangling opening brace) yields `none`. -/
def resolveChars (vars : List (String × String)) (caller : String → Option String) :
    List Char → Option String → Option String
  | [], none => some ""
  | [], some _ => none
  | c :: rest, none =>
    if c = '\x7b' then resolveChars vars caller rest (some "")
    else
      match resolveChars vars caller rest none with
      | some t => some (String.mk [c] ++ t)
      | none => none
  | c :: rest, some name =>
    if c = '\x7d' then
      match lookupVar vars caller name, resolveChars vars caller rest none with
      | some v, some t => some (v ++ t)
      | _, _ => none
    else resolveChars vars caller rest (some (name.push c))

/-- Modelled from the spec: `tpo.format` of the missing `tpo_common` module.
Resolves `\x7bname\x7d` placeholders from the supplied variables with
best-effort fallback to the caller's scope; if resolution fails it raises
(strict mode, `ignore_exception=False`) unless told to ignore the failure, in
which case the literal unresolved template is returned. -/
def tpoFormat (template : String) (vars : List (String × String))
    (caller : String → Option String) (ignoreException : Bool) :
    Except GlueError String :=
  match resolveChars vars caller template.data none with
  | some s => Except.ok s
  | none =>
    if ignoreException then Except.ok template
    else Except.error GlueError.templateResolutionError

/-- The warning text emitted by a failed soft assertion (the model does not
reproduce the file/line introspection, only that a warning is traced). -/
def assertionWarning : String := "Warning: assertion failed"

/-- Embeds `assertion` (glue_helpers lines 399..437): a falsy condition only
traces a warning; nothing is raised and the caller continues. -/
def assertion (condition : Bool) : List String :=
  if condition then [] else [assertionWarning]

/-- Effective subcommand trace level of a `run` call: the explicit
`subtrace_level` argument if given, else the module global
`default_subtrace_level` (lines 173..174). -/
def effLevel (cfg : Config) (subtraceLevel : Option Int) : Int :=
  match subtraceLevel with
  | some l => l
  | none => cfg.defaultSubtraceLevel

/-- Effect of the shell executing `commandLine` on the tracked temp log: when
the line ends with the stderr redirection that `issue` appends, the shell
writes the command's stderr there; otherwise the file is untouched. -/
def execLogEffect (sh : Shell) (logFile commandLine : String)
    (old : Option String) : Option String :=
  if strEndsWith commandLine (" 2>| " ++ logFile) then some (sh.stderrText commandLine)
  else old

/-- Outcome of one `run` call: the returned value or propagated exception,
the final process state, whether the call blocked (`none` when execution was
never reached), the resolved command line handed to the shell, the effective
subcommand level, and the soft-assertion warnings traced. -/
structure RunOutcome where
  ret : Except GlueError String
  world : World
  waited : Option Bool
  commandLine : Option String
  effSubtrace : Int
  warnings : List String

/-- Embeds `run` (glue_helpers lines 163..193).
Order of the source: soft assertion on `trace_level` (always an `Int` here,
so it never fires), defaulting of `subtrace_level`, saving and staging of
`DEBUG_LEVEL` when the levels differ, template expansion only when a brace
group is present (strict, so a resolution failure propagates and skips the
restore), the `wait` test on the *unexpanded* command, the soft assertion
`wait or not just_issue`, execution via `getoutput` or `os.system`, and the
restore of `DEBUG_LEVEL` only when the saved value was truthy (a previously
unset or empty value is never restored). -/
def run (sh : Shell) (cfg : Config) (w : World) (command : String)
    (traceLevel : Int) (subtraceLevel : Option Int) (justIssue : Bool)
    (vars : List (String × String)) (caller : String → Option String) :
    RunOutcome :=
  let warns0 := assertion true
  let st := effLevel cfg subtraceLevel
  let saved : Option String := if st ≠ traceLevel then w.debugLevelEnv else none
  let staged : Option String :=
    if st ≠ traceLevel then some (toString st) else w.debugLevelEnv
  match (if hasBraceGroup command then tpoFormat command vars caller false
         else Except.ok command) with
  | Except.error e =>
    { ret := Except.error e
      world := { debugLevelEnv := staged, tempLog := w.tempLog }
      waited := none
      commandLine := none
      effSubtrace := st
      warnings := warns0 }
  | Except.ok commandLine =>
    let wait := !(strEndsWith command "&")
    let warns1 := warns0 ++ assertion (wait || !justIssue)
    let result := if wait then sh.getoutput commandLine
                  else toString (sh.system commandLine)
    let restored : Option String :=
      match saved with
      | some prev => if prev ≠ "" then some prev else staged
      | none => staged
    { ret := Except.ok result
      world := { debugLevelEnv := restored
                 tempLog := execLogEffect sh cfg.tempLogFile commandLine w.tempLog }
      waited := some wait
      commandLine := some commandLine
      effSubtrace := st
      warnings := warns1 }

/-- Embeds `disable_subcommand_tracing` (lines 156..161): forces the module
global `default_subtrace_level` to `0`. -/
def disable_subcommand_tracing (cfg : Config) : Config :=
  { cfg with defaultSubtraceLevel := 0 }

/-- Embeds the module-level initialization of `default_subtrace_level`
(lines 36..39): `min(tpo.USUAL, tpo.debugging_level())`, overridden to
`tpo.debugging_level()` when `ALLOW_SUBCOMMAND_TRACING` is set.  `tpo.USUAL`
and `tpo.debugging_level()` live in the missing `tpo_common` module and are
taken as parameters. -/
def default_subtrace_level_init (allowSubcommandTracing : Bool)
    (usual debuggingLevel : Int) : Int :=
  if allowSubcommandTracing then debuggingLevel else min usual debuggingLevel

/-- Embeds `non_empty_file` (lines 76..81) applied to the tracked temp log:
the file exists and has positive size. -/
def non_empty_file (contents : Option String) : Bool :=
  match contents with
  | none => false
  | some s => !s.data.isEmpty

/-- Split a character list at newlines (used by the `read_lines` model). -/
def splitOnNl : List Char → List (List Char)
  | [] => [[]]
  | c :: rest =>
    let r := splitOnNl rest
    if c = '\n' then [] :: r
    else
      match r with
      | [] => [[c]]
      | g :: gs => (c :: g) :: gs

/-- Embeds `read_lines` (lines 260..288) on in-memory contents: the file's
lines with their trailing newlines stripped; an empty file gives no lines. -/
def read_lines (contents : String) : List String :=
  match contents.data with
  | [] => []
  | c :: cs =>
    let all := c :: cs
    let body := if all.getLast? = some '\n' then all.dropLast else all
    (splitOnNl body).map (fun g => String.mk g)

/-- Newline join (the `"\n".join` step of `read_file`). -/
def joinNl : List String → String
  | [] => ""
  | [s] => s
  | s :: rest => s ++ "\n" ++ joinNl rest

/-- Embeds `read_file` (lines 310..315): newline-join of `read_lines` with a
trailing newline re-added when non-empty. -/
def read_file (contents : String) : String :=
  let text := joinNl (read_lines contents)
  if text = "" then "" else text ++ "\n"

/-- Warning traced when `os.remove` fails inside `delete_file`. -/
def deleteWarning : String := "Exception during deletion"

/-- Embeds `delete_file` (lines 338..348) restricted to the tracked temp log:
a soft assertion that the file exists, then a best-effort `os.remove` whose
`OSError` is caught and only logged.  Returns the new file state and the
warnings traced. -/
def delete_file (sh : Shell) (t : Option String) : Option String × List String :=
  match t with
  | none => (none, assertion false ++ [deleteWarning])
  | some s => if sh.deleteOk then (none, []) else (some s, [deleteWarning])

/-- Outcome of one `issue` call: the unit return or propagated exception, the
final process state, the command string handed on after the optional stderr
redirection was appended, the `read_file` contents traced as "stderr output
from command" (if any), whether `delete_file` was invoked, and the warnings
traced. -/
structure IssueOutcome where
  ret : Except GlueError Unit
  world : World
  issuedCommand : String
  stderrTraced : Option String
  deletedCall : Bool
  warnings : List String

/-- Embeds `issue` (glue_helpers lines 196..221).
Order of the source: when debugging is on and the command carries no explicit
stderr-redirection marker (`2>` or `2|&1`), append ` 2>| TEMP_LOG_FILE`;
resolve the template strictly (an unresolved placeholder propagates before
anything runs); delegate to `run` with `just_issue=True` and no forwarded
variables; afterwards, only when a redirection was staged: trace the log's
`read_file` contents when debugging finds it non-empty, and delete it unless
detailed debugging is enabled.  A failure inside `run` skips the read/delete
block (it is not a cleanup handler in the source). -/
def issue (sh : Shell) (cfg : Config) (w : World) (command : String)
    (traceLevel : Int) (subtraceLevel : Option Int)
    (vars : List (String × String)) (caller : String → Option String) :
    IssueOutcome :=
  let redirect := cfg.debugging && !(strHasSub command "2>")
                    && !(strHasSub command "2|&1")
  let command1 := if redirect then command ++ " 2>| " ++ cfg.tempLogFile else command
  match (if hasBraceGroup command1 then tpoFormat command1 vars caller false
         else Except.ok command1) with
  | Except.error e =>
    { ret := Except.error e, world := w, issuedCommand := command1
      stderrTraced := none, deletedCall := false, warnings := [] }
  | Except.ok commandLine =>
    let r := run sh cfg w commandLine traceLevel subtraceLevel true [] caller
    match r.ret with
    | Except.error e =>
      { ret := Except.error e, world := r.world, issuedCommand := command1
        stderrTraced := none, deletedCall := false, warnings := r.warnings }
    | Except.ok _ =>
      if redirect then
        let traced :=
          if cfg.debugging && non_empty_file r.world.tempLog then
            some (read_file (r.world.tempLog.getD ""))
          else none
        if !cfg.detailedDebugging then
          let del := delete_file sh r.world.tempLog
          { ret := Except.ok (), world := { r.world with tempLog := del.1 }
            issuedCommand := command1, stderrTraced := traced
            deletedCall := true, warnings := r.warnings ++ del.2 }
        else
          { ret := Except.ok (), world := r.world, issuedCommand := command1
            stderrTraced := traced, deletedCall := false, warnings := r.warnings }
      else
        { ret := Except.ok (), world := r.world, issuedCommand := command1
          stderrTraced := none, deletedCall := false, warnings := r.warnings }

/-- A shell oracle with fixed answers, for concrete evaluations. -/
def shellA : Shell :=
  { getoutput := fun _ => "out"
    system := fun _ => 0
    stderrText := fun _ => "oops\n"
    deleteOk := true }

/-- A shell whose blocking output is the error text `ls` prints for a missing
directory. -/
def shellErr : Shell :=
  { getoutput := fun _ => "ls: cannot access /nonexistent_dir_xyz: No such file or directory"
    system := fun _ => 0
    stderrText := fun _ => ""
    deleteOk := true }

/-- Caller scope with no bindings. -/
def noCaller : String → Option String := fun _ => none

/-- Configuration with debugging off. -/
def cfgA : Config :=
  { defaultSubtraceLevel := 2, debugging := false, detailedDebugging := false
    tempLogFile := "/tmp/log" }

/-- Configuration with (non-detailed) debugging on. -/
def cfgDbg : Config :=
  { defaultSubtraceLevel := 2, debugging := true, detailedDebugging := false
    tempLogFile := "/tmp/log" }

/-- World with `DEBUG_LEVEL` unset and the temp log absent. -/
def worldA : World := { debugLevelEnv := none, tempLog := none }

/-- World with `DEBUG_LEVEL` previously set to `"3"`. -/
def worldSet : World := { debugLevelEnv := some "3", tempLog := none }

theorem listPre_self_append (l r : List Char) : listPre l (l ++ r) = true := by
  induction l with
  | nil => rfl
  | cons a as ih => simp [listPre, ih]

theorem listPre_append_left (u v w : List Char) :
    listPre (u ++ v) (u ++ w) = listPre v w := by
  induction u with
  | nil => rfl
  | cons a as ih => simp [listPre, ih]

theorem data_append (a b : String) : (a ++ b).data = a.data ++ b.data := by
  cases a
  cases b
  rfl

theorem strEndsWith_append_append (a b c : String) :
    strEndsWith (a ++ b ++ c) (b ++ c) = true := by
  simp only [strEndsWith, data_append, List.reverse_append]
  rw [listPre_append_left]
  exact listPre_self_append _ _

/-- Claim C1, counterexample: with `DEBUG_LEVEL` previously unset and
`subtrace_level = 5` differing from `trace_level = 4`, a successful `run`
leaves `DEBUG_LEVEL` set to `"5"` — it does not equal its value before the
call, refuting the claimed restoration for the previously-unset case (the
source restores only under `if debug_level_env:`, line 190). -/
theorem run_C1_counterexample :
    worldA.debugLevelEnv = none
    ∧ (run shellA cfgA worldA "ls" 4 (some 5) false [] noCaller).world.debugLevelEnv
        = some "5"
    ∧ (run shellA cfgA worldA "ls" 4 (some 5) false [] noCaller).world.debugLevelEnv
        ≠ worldA.debugLevelEnv := by
  refine ⟨rfl, rfl, ?_⟩
  decide

/-- Claim C1, amended: after a `run` call that reaches execution (template
resolution succeeds), `DEBUG_LEVEL` is restored to its prior value only when
that prior value was a set, non-empty string; when it was previously unset
and the effective subcommand level differs from the trace level, the variable
instead remains set to the string of the effective subcommand level. -/
theorem run_C1_amended (sh : Shell) (cfg : Config) (w : World) (command : String)
    (traceLevel : Int) (subtraceLevel : Option Int) (justIssue : Bool)
    (vars : List (String × String)) (caller : String → Option String)
    (hb : hasBraceGroup command = false) :
    (∀ prev : String, w.debugLevelEnv = some prev → prev ≠ "" →
      (run sh cfg w command traceLevel subtraceLevel justIssue vars caller).world.debugLevelEnv
        = some prev)
    ∧ (w.debugLevelEnv = none → effLevel cfg subtraceLevel ≠ traceLevel →
      (run sh cfg w command traceLevel subtraceLevel justIssue vars caller).world.debugLevelEnv
        = some (toString (effLevel cfg subtraceLevel))) := by
  constructor
  · intro prev hprev hne
    by_cases hc : effLevel cfg subtraceLevel = traceLevel
    · simp [run, hb, hc, hprev]
    · simp [run, hb, hc, hprev, hne]
  · intro hnone hc
    simp [run, hb, hc, hnone]

/-- Claim C1, witness for the amended statement: a previously set
`DEBUG_LEVEL` of `"3"` is restored after `run`, and a previously unset one
ends up as `"6"` when the subtrace override is `6`. -/
theorem run_C1_amended_witness :
    (run shellA cfgA worldSet "ls" 4 (some 5) false [] noCaller).world.debugLevelEnv
      = some "3"
    ∧ (run shellA cfgA worldA "ls" 4 (some 6) false [] noCaller).world.debugLevelEnv
      = some "6" := by
  have h1 := run_C1_amended shellA cfgA worldSet "ls" 4 (some 5) false [] noCaller rfl
  have h2 := run_C1_amended shellA cfgA worldA "ls" 4 (some 6) false [] noCaller rfl
  exact ⟨h1.1 "3" rfl (by decide), h2.2 rfl (by decide)⟩

/-- Claim C2, counterexample: `run` on a command ending in the background
marker, called without any fire-and-forget opt-in (`just_issue=False`),
raises nothing and emits no warning — it returns the stringified `os.system`
status normally, refuting the claimed `FireAndForgetMismatchError`. -/
theorem run_C2_counterexample :
    strEndsWith "sleep 1 &" "&" = true
    ∧ (run shellA cfgA worldA "sleep 1 &" 4 none false [] noCaller).ret = Except.ok "0"
    ∧ (run shellA cfgA worldA "sleep 1 &" 4 none false [] noCaller).warnings = [] := by
  exact ⟨rfl, rfl, rfl⟩

/-- Claim C2, amended: for every command whose template (the source tests the
unexpanded string, not the resolved line) ends in `&`, `run` never raises: it
does not wait, returns the raw stringified `os.system` status rather than
captured text, and the only consistency check is a soft assertion that warns
precisely when `just_issue` is true. -/
theorem run_C2_amended (sh : Shell) (cfg : Config) (w : World) (command : String)
    (traceLevel : Int) (subtraceLevel : Option Int) (justIssue : Bool)
    (vars : List (String × String)) (caller : String → Option String)
    (hbg : strEndsWith command "&" = true)
    (hb : hasBraceGroup command = false) :
    (run sh cfg w command traceLevel subtraceLevel justIssue vars caller).waited
      = some false
    ∧ (run sh cfg w command traceLevel subtraceLevel justIssue vars caller).ret
      = Except.ok (toString (sh.system command))
    ∧ (run sh cfg w command traceLevel subtraceLevel justIssue vars caller).warnings
      = (if justIssue then [assertionWarning] else []) := by
  refine ⟨?_, ?_, ?_⟩ <;> cases justIssue <;> simp [run, hb, hbg, assertion]

/-- Claim C2, witness for the amended statement: `run("xeyes &")` with
`just_issue=True` launches without waiting, returns status `"0"`, and traces
the soft-assertion warning. -/
theorem run_C2_amended_witness :
    (run shellA cfgA worldA "xeyes &" 4 none true [] noCaller).waited = some false
    ∧ (run shellA cfgA worldA "xeyes &" 4 none true [] noCaller).ret = Except.ok "0"
    ∧ (run shellA cfgA worldA "xeyes &" 4 none true [] noCaller).warnings
      = [assertionWarning] := by
  have h := run_C2_amended shellA cfgA worldA "xeyes &" 4 none true [] noCaller rfl rfl
  exact ⟨h.1, h.2.1, h.2.2⟩

/-- Claim C3: an `issue` call with debugging enabled on a command carrying no
stderr-redirection marker appends ` 2>| TEMP_LOG_FILE` before delegating;
after the underlying `run` completes, a non-empty log has its `read_file`
contents traced, `delete_file` is invoked exactly when detailed debugging is
off (removing the file when `os.remove` succeeds), and the call returns
normally for every shell — in particular a failed deletion is never
surfaced. -/
theorem issue_C3 (sh : Shell) (cfg : Config) (w : World) (command : String)
    (traceLevel : Int) (subtraceLevel : Option Int)
    (vars : List (String × String)) (caller : String → Option String)
    (hdbg : cfg.debugging = true)
    (h1 : strHasSub command "2>" = false)
    (h2 : strHasSub command "2|&1" = false)
    (hres : hasBraceGroup (command ++ " 2>| " ++ cfg.tempLogFile) = false) :
    (issue sh cfg w command traceLevel subtraceLevel vars caller).issuedCommand
      = command ++ " 2>| " ++ cfg.tempLogFile
    ∧ (issue sh cfg w command traceLevel subtraceLevel vars caller).ret = Except.ok ()
    ∧ (non_empty_file (some (sh.stderrText (command ++ " 2>| " ++ cfg.tempLogFile))) = true →
      (issue sh cfg w command traceLevel subtraceLevel vars caller).stderrTraced
        = some (read_file (sh.stderrText (command ++ " 2>| " ++ cfg.tempLogFile))))
    ∧ (issue sh cfg w command traceLevel subtraceLevel vars caller).deletedCall
      = !cfg.detailedDebugging
    ∧ (cfg.detailedDebugging = false → sh.deleteOk = true →
      (issue sh cfg w command traceLevel subtraceLevel vars caller).world.tempLog = none) := by
  have hml : execLogEffect sh cfg.tempLogFile (command ++ " 2>| " ++ cfg.tempLogFile)
      w.tempLog = some (sh.stderrText (command ++ " 2>| " ++ cfg.tempLogFile)) := by
    simp [execLogEffect, strEndsWith_append_append]
  refine ⟨?_, ?_, fun hne => ?_, ?_, fun hdet hok => ?_⟩
  · cases hE : cfg.detailedDebugging <;>
      simp [issue, run, hdbg, h1, h2, hres, hml, hE]
  · cases hE : cfg.detailedDebugging <;>
      simp [issue, run, hdbg, h1, h2, hres, hml, hE]
  · simp only [non_empty_file, Bool.not_eq_true'] at hne
    cases hE : cfg.detailedDebugging <;>
      simp [issue, run, hdbg, h1, h2, hres, hml, hE, non_empty_file, hne]
  · cases hE : cfg.detailedDebugging <;>
      simp [issue, run, hdbg, h1, h2, hres, hml, hE]
  · simp [issue, run, hdbg, h1, h2, hres, hml, hdet, delete_file, hok]

/-- Claim C3, witness: with debugging on (not detailed) and a command writing
`"oops\n"` to stderr, `issue` appends the redirection, traces the log's
contents, deletes the log, and returns normally. -/
theorem issue_C3_witness :
    (issue shellA cfgDbg worldA "mycmd" 4 none [] noCaller).issuedCommand
      = "mycmd 2>| /tmp/log"
    ∧ (issue shellA cfgDbg worldA "mycmd" 4 none [] noCaller).stderrTraced = some "oops\n"
    ∧ (issue shellA cfgDbg worldA "mycmd" 4 none [] noCaller).world.tempLog = none
    ∧ (issue shellA cfgDbg worldA "mycmd" 4 none [] noCaller).ret = Except.ok () := by
  have h := issue_C3 shellA cfgDbg worldA "mycmd" 4 none [] noCaller rfl rfl rfl rfl
  exact ⟨h.1, h.2.2.1 (by decide), h.2.2.2.2 rfl rfl, h.2.1⟩

/-- Claim C4: for a template containing a brace group, `run` resolves it
strictly (the source hardcodes `ignore_exception=False`): an unresolved
placeholder makes the call fail with the template-resolution error, a fully
resolved template is passed to the shell exactly as substituted, and only the
explicit lenient flag of the resolver would make the literal unresolved
template be used as the command line. -/
theorem run_C4 (sh : Shell) (cfg : Config) (w : World) (command : String)
    (traceLevel : Int) (subtraceLevel : Option Int) (justIssue : Bool)
    (vars : List (String × String)) (caller : String → Option String)
    (hb : hasBraceGroup command = true) :
    (resolveChars vars caller command.data none = none →
      (run sh cfg w command traceLevel subtraceLevel justIssue vars caller).ret
        = Except.error GlueError.templateResolutionError)
    ∧ (∀ s : String, resolveChars vars caller command.data none = some s →
      (run sh cfg w command traceLevel subtraceLevel justIssue vars caller).commandLine
        = some s)
    ∧ (resolveChars vars caller command.data none = none →
      tpoFormat command vars caller true = Except.ok command) := by
  refine ⟨fun h => ?_, fun s hs => ?_, fun h => ?_⟩
  · simp [run, hb, tpoFormat, h]
  · simp [run, hb, tpoFormat, hs]
  · simp [tpoFormat, h]

/-- Claim C4, witness: `run("echo \x7bx\x7d", x="hi")` resolves to
`echo hi`, while an unbound placeholder makes `run` fail with the
template-resolution error. -/
theorem run_C4_witness :
    (run shellA cfgA worldA "echo \x7bx\x7d" 4 none false [("x", "hi")] noCaller).commandLine
      = some "echo hi"
    ∧ (run shellA cfgA worldA "echo \x7by\x7d" 4 none false [] noCaller).ret
      = Except.error GlueError.templateResolutionError := by
  have ha := run_C4 shellA cfgA worldA "echo \x7bx\x7d" 4 none false [("x", "hi")] noCaller rfl
  have hc := run_C4 shellA cfgA worldA "echo \x7by\x7d" 4 none false [] noCaller rfl
  exact ⟨ha.2.1 "echo hi" (by decide), hc.1 (by decide)⟩

/-- Claim C5: a template containing no brace group undergoes no expansion —
the resolved command line `run` hands to the shell is the input string
verbatim. -/
theorem run_C5 (sh : Shell) (cfg : Config) (w : World) (command : String)
    (traceLevel : Int) (subtraceLevel : Option Int) (justIssue : Bool)
    (vars : List (String × String)) (caller : String → Option String)
    (hb : hasBraceGroup command = false) :
    (run sh cfg w command traceLevel subtraceLevel justIssue vars caller).commandLine
      = some command := by
  simp [run, hb]

/-- Claim C5, witness: `run("ls -l /")` passes `ls -l /` to the shell
unchanged. -/
theorem run_C5_witness :
    (run shellA cfgA worldA "ls -l /" 4 none false [] noCaller).commandLine
      = some "ls -l /" :=
  run_C5 shellA cfgA worldA "ls -l /" 4 none false [] noCaller rfl

/-- Claim C6: after `disable_subcommand_tracing` has set the module global to
`0`, every subsequent `run` call without an explicit subtrace override
computes effective subcommand level `0`, whatever the shell, state, command or
other arguments. -/
theorem run_C6 (sh : Shell) (cfg : Config) (w : World) (command : String)
    (traceLevel : Int) (justIssue : Bool)
    (vars : List (String × String)) (caller : String → Option String) :
    (run sh (disable_subcommand_tracing cfg) w command traceLevel none justIssue
        vars caller).effSubtrace = 0 := by
  cases h : (if hasBraceGroup command
             then tpoFormat command vars caller false
             else Except.ok command) <;>
    simp [run, h, effLevel, disable_subcommand_tracing]

/-- Claim C7: a blocking `run` never inspects the shell command's exit
status: for every shell oracle the returned value is exactly the captured
output text of `getoutput` — error text included — and no error is raised. -/
theorem run_C7 (sh : Shell) (cfg : Config) (w : World) (command : String)
    (traceLevel : Int) (subtraceLevel : Option Int) (justIssue : Bool)
    (vars : List (String × String)) (caller : String → Option String)
    (hbg : strEndsWith command "&" = false)
    (hb : hasBraceGroup command = false) :
    (run sh cfg w command traceLevel subtraceLevel justIssue vars caller).waited = some true
    ∧ (run sh cfg w command traceLevel subtraceLevel justIssue vars caller).ret
        = Except.ok (sh.getoutput command) := by
  constructor <;> simp [run, hb, hbg]

/-- Claim C7, witness: `run("ls /nonexistent_dir_xyz")` returns the shell's
error text as its output and does not raise. -/
theorem run_C7_witness :
    (run shellErr cfgA worldA "ls /nonexistent_dir_xyz" 4 none false [] noCaller).ret
      = Except.ok "ls: cannot access /nonexistent_dir_xyz: No such file or directory"
    ∧ (run shellErr cfgA worldA "ls /nonexistent_dir_xyz" 4 none false [] noCaller).waited
      = some true := by
  have h := run_C7 shellErr cfgA worldA "ls /nonexistent_dir_xyz" 4 none false [] noCaller rfl rfl
  exact ⟨h.2, h.1⟩

/-- Claim C8: at startup `default_subtrace_level` equals the current
debugging level when detailed subcommand tracing is allowed, and otherwise
the minimum of the usual tier and the current level — hence it never exceeds
the current level when tracing is not force-enabled. -/
theorem default_subtrace_level_C8 (usual debuggingLevel : Int) :
    default_subtrace_level_init true usual debuggingLevel = debuggingLevel
    ∧ default_subtrace_level_init false usual debuggingLevel = min usual debuggingLevel
    ∧ default_subtrace_level_init false usual debuggingLevel ≤ debuggingLevel := by
  refine ⟨rfl, rfl, ?_⟩
  simp [default_subtrace_level_init]

/-- Claim C9: the soft assertions inside `run` never terminate the call:
whenever the template resolves, `run` returns normally with the executed
result for every `just_issue`/background combination, and its traced
warnings are exactly those of `assertion` applied to the
`wait or not just_issue` condition — a falsy condition only warns. -/
theorem run_C9 (sh : Shell) (cfg : Config) (w : World) (command : String)
    (traceLevel : Int) (subtraceLevel : Option Int) (justIssue : Bool)
    (vars : List (String × String)) (caller : String → Option String)
    (hb : hasBraceGroup command = false) :
    (run sh cfg w command traceLevel subtraceLevel justIssue vars caller).ret
      = Except.ok (if strEndsWith command "&" then toString (sh.system command)
                   else sh.getoutput command)
    ∧ (run sh cfg w command traceLevel subtraceLevel justIssue vars caller).warnings
      = assertion (!(strEndsWith command "&") || !justIssue) := by
  cases hE : strEndsWith command "&" <;> simp [run, hb, hE, assertion]

/-- Claim C9, witness: a background command with `just_issue=True` makes the
consistency assertion falsy, yet `run` still completes and returns the launch
status, with only the warning traced. -/
theorem run_C9_witness :
    (run shellA cfgA worldA "make all &" 4 none true [] noCaller).ret = Except.ok "0"
    ∧ (run shellA cfgA worldA "make all &" 4 none true [] noCaller).warnings
      = [assertionWarning] := by
  have h := run_C9 shellA cfgA worldA "make all &" 4 none true [] noCaller rfl
  exact ⟨h.1, h.2⟩

/-- Claim C10: an `issue` call with debugging disabled appends no stderr
redirection, and (for a command that does not itself end in the redirection)
the temp log file is neither read, nor deleted, nor otherwise changed by the
call, which returns normally. -/
theorem issue_C10 (sh : Shell) (cfg : Config) (w : World) (command : String)
    (traceLevel : Int) (subtraceLevel : Option Int)
    (vars : List (String × String)) (caller : String → Option String)
    (hdbg : cfg.debugging = false)
    (hb : hasBraceGroup command = false)
    (hnr : strEndsWith command (" 2>| " ++ cfg.tempLogFile) = false) :
    (issue sh cfg w command traceLevel subtraceLevel vars caller).issuedCommand = command
    ∧ (issue sh cfg w command traceLevel subtraceLevel vars caller).stderrTraced = none
    ∧ (issue sh cfg w command traceLevel subtraceLevel vars caller).deletedCall = false
    ∧ (issue sh cfg w command traceLevel subtraceLevel vars caller).world.tempLog
      = w.tempLog
    ∧ (issue sh cfg w command traceLevel subtraceLevel vars caller).ret
      = Except.ok () := by
  refine ⟨?_, ?_, ?_, ?_, ?_⟩ <;> simp [issue, run, hdbg, hb, execLogEffect, hnr]

/-- Claim C10, witness: with debugging off, `issue("wc -l notes.txt")` passes
the command through untouched and leaves the (absent) temp log absent,
reading and tracing nothing. -/
theorem issue_C10_witness :
    (issue shellA cfgA worldA "wc -l notes.txt" 4 none [] noCaller).issuedCommand
      = "wc -l notes.txt"
    ∧ (issue shellA cfgA worldA "wc -l notes.txt" 4 none [] noCaller).world.tempLog = none
    ∧ (issue shellA cfgA worldA "wc -l notes.txt" 4 none [] noCaller).stderrTraced
      = none := by
  have h := issue_C10 shellA cfgA worldA "wc -l notes.txt" 4 none [] noCaller rfl rfl rfl
  exact ⟨h.1, h.2.2.2.1, h.2.1⟩

end GlueHelpers
